import Mathlib

/-!
Shallow embedding of the Java module build-action generator (java/java.go):
dependency declaration, the boot-classpath policy, dependency collection and
classification, the compile/merge/rename/convert pipeline of
GenerateJavaBuildActions, the prebuilt variant, and the module factories.
The external transform helpers (builder.go) and the property loader are
modelled from the spec where noted; everything else mirrors java.go.
-/

namespace Soong

/-- Modelled from the spec: a jarSpec (defined in builder.go, which is not part
of the provided sources) is a named, ordered group of archive members destined
for one container archive.  Its internal entry list is irrelevant to the
properties proved here, so it is represented by an opaque identifier. -/
structure jarSpec where
  id : String
  deriving DecidableEq, Repr

/-- The configurable properties of javaBase (java.go lines 53-89), plus the
mutated Dex flag. -/
structure Properties where
  Srcs : List String
  Resource_dirs : List String
  No_standard_libraries : Bool
  Javacflags : List String
  Dxflags : List String
  Java_libs : List String
  Java_static_libs : List String
  Manifest : String
  Sdk_version : String
  Dex : Bool
  Jarjar_rules : String
  deriving DecidableEq, Repr

/-- inList from java.go lines 412-419. -/
def inList (s : String) (l : List String) : Bool :=
  match l with
  | [] => false
  | e :: rest => if e = s then true else inList s rest

/-- BootClasspath from java.go lines 124-143.  ctx.Device() is passed as the
boolean `device`. -/
def BootClasspath (device : Bool) (j : Properties) : String :=
  if device then
    if j.Sdk_version = "" then
      "core-libart"
    else if j.Sdk_version = "current" then
      "android_stubs_current"
    else if j.Sdk_version = "system_current" then
      "android_system_stubs_current"
    else
      "sdk_v" ++ j.Sdk_version
  else
    if j.Dex then
      "core-libart"
    else
      ""

/-- AndroidDynamicDependencies from java.go lines 145-158. -/
def AndroidDynamicDependencies (device : Bool) (j : Properties) : List String :=
  let deps : List String := []
  let deps :=
    if !j.No_standard_libraries then
      let bootClasspath := BootClasspath device j
      if bootClasspath ≠ "" then deps ++ [bootClasspath] else deps
    else deps
  let deps := deps ++ j.Java_libs
  deps ++ j.Java_static_libs

/-- A resolved direct dependency as seen by collectDeps: its name in the
dependency graph, whether it implements the JavaDependency interface, and the
values of its ClasspathFile / ClassJarSpecs / ResourceJarSpecs methods. -/
structure ResolvedDep where
  name : String
  isJavaDep : Bool
  classpathFile : String
  classJarSpecs : List jarSpec
  resourceJarSpecs : List jarSpec
  deriving DecidableEq, Repr

/-- The four accumulated results of collectDeps together with the errors
recorded through ctx.ModuleErrorf (which does not abort the visit). -/
structure CollectResult where
  classpath : List String
  bootClasspath : String
  classJarSpecs : List jarSpec
  resourceJarSpecs : List jarSpec
  moduleErrors : List String
  deriving DecidableEq, Repr

def emptyCollect : CollectResult := ⟨[], "", [], [], []⟩

/-- The visit body of collectDeps (java.go lines 160-183), folded over the
direct dependencies in visitation order.  The panic on an unclassifiable
JavaDependency aborts the whole generation and is modelled as Except.error;
ctx.ModuleErrorf records an error and continues visiting. -/
def collectDepsAux (device : Bool) (j : Properties) (moduleName : String)
    (acc : CollectResult) : List ResolvedDep → Except String CollectResult
  | [] => .ok acc
  | d :: rest =>
    if d.isJavaDep then
      if inList d.name j.Java_libs then
        collectDepsAux device j moduleName
          { acc with classpath := acc.classpath ++ [d.classpathFile] } rest
      else if inList d.name j.Java_static_libs then
        collectDepsAux device j moduleName
          { acc with
            classpath := acc.classpath ++ [d.classpathFile]
            classJarSpecs := acc.classJarSpecs ++ d.classJarSpecs
            resourceJarSpecs := acc.resourceJarSpecs ++ d.resourceJarSpecs } rest
      else if d.name = BootClasspath device j then
        collectDepsAux device j moduleName
          { acc with bootClasspath := d.classpathFile } rest
      else
        .error ("unknown dependency " ++ d.name ++ " for " ++ moduleName)
    else
      collectDepsAux device j moduleName
        { acc with moduleErrors :=
            acc.moduleErrors ++ ["unknown dependency module type for " ++ d.name] } rest

/-- collectDeps from java.go lines 160-183. -/
def collectDeps (device : Bool) (j : Properties) (moduleName : String)
    (deps : List ResolvedDep) : Except String CollectResult :=
  collectDepsAux device j moduleName emptyCollect deps

/-- Modelled from the spec: TransformJavaToClasses (builder.go, not in the
provided sources) compiles this module's sources into one class-material
jarSpec. -/
def transformJavaToClasses (moduleName : String) : jarSpec :=
  ⟨moduleName ++ "/classes"⟩

/-- Modelled from the spec: ResourceDirsToJarSpecs turns each resource
directory into one resource jarSpec. -/
def resourceDirsToJarSpecs (moduleName : String) (dirs : List String) : List jarSpec :=
  dirs.map (fun d => ⟨moduleName ++ "/res/" ++ d⟩)

/-- Modelled from the spec: output path of TransformClassesToJar, the primary
merge producing classes-full-debug.jar. -/
def classesJarPath (moduleName : String) : String :=
  moduleName ++ "/classes-full-debug.jar"

/-- Modelled from the spec: output path of TransformJarJar, the rename stage
producing a new archive classes-jarjar.jar. -/
def jarjarJarPath (moduleName : String) : String :=
  moduleName ++ "/classes-jarjar.jar"

/-- Modelled from the spec: output path of TransformDexToJavaLib, the final
re-merge of the converted payload with the resource jarSpecs. -/
def javalibJarPath (moduleName : String) : String :=
  moduleName ++ "/javalib.jar"

/-- Modelled from the spec: ctx.InstallFileName installs the artifact under
the fixed framework category as moduleName.jar. -/
def installPath (moduleName : String) : String :=
  "framework/" ++ moduleName ++ ".jar"

/-- The pipeline stages of GenerateJavaBuildActions, in the order the code
runs them. -/
inductive Stage where
  | compile
  | primaryMerge
  | rename
  | dexConvert
  | dexMerge
  deriving DecidableEq, Repr

/-- Which of the external transform stages report failure through the build
context (ctx.Failed() observed after the corresponding transform call). -/
structure StageFailures where
  compileFails : Bool
  mergeFails : Bool
  jarjarFails : Bool
  dexFails : Bool
  deriving DecidableEq, Repr

def noFailures : StageFailures := ⟨false, false, false, false⟩

def compileFailure : StageFailures := ⟨true, false, false, false⟩

def mergeFailure : StageFailures := ⟨false, true, false, false⟩

def jarjarFailure : StageFailures := ⟨false, false, true, false⟩

def dexFailure : StageFailures := ⟨false, false, false, true⟩

/-- The mutable result fields of javaBase (java.go lines 91-101): the
exported capability (classpathFile, classJarSpecs, resourceJarSpecs) and the
install location.  All zero-valued before the generation pass runs. -/
structure ModuleState where
  classpathFile : String
  classJarSpecs : List jarSpec
  resourceJarSpecs : List jarSpec
  installFile : String
  deriving DecidableEq, Repr

def initialState : ModuleState := ⟨"", [], [], ""⟩

/-- Result of one run of GenerateJavaBuildActions: the final field state, the
stages that were started, the jarSpec list handed to the primary merge
(allJarSpecs, empty when the merge was never attempted), and whether the run
ended with the context in a failed state. -/
structure ModuleRun where
  state : ModuleState
  stagesRun : List Stage
  allJarSpecs : List jarSpec
  failed : Bool
  deriving DecidableEq, Repr

/-- The dex block and install step of GenerateJavaBuildActions (java.go
lines 249-286), run after classpathFile has been assigned. -/
def finishDex (moduleName : String) (j : Properties) (f : StageFailures)
    (r : ModuleRun) : ModuleRun :=
  if j.Dex then
    let stages := r.stagesRun ++ [Stage.dexConvert]
    if f.dexFails then
      ⟨r.state, stages, r.allJarSpecs, true⟩
    else
      let stages := stages ++ [Stage.dexMerge]
      ⟨{ r.state with installFile := installPath moduleName }, stages, r.allJarSpecs, false⟩
  else
    ⟨{ r.state with installFile := installPath moduleName }, r.stagesRun, r.allJarSpecs, false⟩

/-- GenerateJavaBuildActions from java.go lines 189-286.  Mirrors the source
control flow: collect dependencies (a panic propagates), compile, check
ctx.Failed(), prepend own resources and own classes to the collected jarSpec
lists, primary merge, check, publish the jarSpec lists, optional jarjar
rename with check, publish classpathFile, optional dex convert with check and
final re-merge, install. -/
def generateJavaBuildActions (device : Bool) (moduleName : String)
    (j : Properties) (deps : List ResolvedDep) (f : StageFailures) :
    Except String ModuleRun :=
  match collectDeps device j moduleName deps with
  | .error e => .error e
  | .ok c =>
    let stages1 : List Stage := [Stage.compile]
    if f.compileFails || !c.moduleErrors.isEmpty then
      .ok ⟨initialState, stages1, [], true⟩
    else
      let resourceJarSpecs :=
        resourceDirsToJarSpecs moduleName j.Resource_dirs ++ c.resourceJarSpecs
      let classJarSpecs := transformJavaToClasses moduleName :: c.classJarSpecs
      let allJarSpecs := classJarSpecs ++ resourceJarSpecs
      let stages2 := stages1 ++ [Stage.primaryMerge]
      if f.mergeFails then
        .ok ⟨initialState, stages2, allJarSpecs, true⟩
      else
        let st1 : ModuleState :=
          { initialState with
            classJarSpecs := classJarSpecs
            resourceJarSpecs := resourceJarSpecs }
        if j.Jarjar_rules ≠ "" then
          let stages3 := stages2 ++ [Stage.rename]
          if f.jarjarFails then
            .ok ⟨st1, stages3, allJarSpecs, true⟩
          else
            .ok (finishDex moduleName j f
              ⟨{ st1 with classpathFile := jarjarJarPath moduleName },
               stages3, allJarSpecs, false⟩)
        else
          .ok (finishDex moduleName j f
            ⟨{ st1 with classpathFile := classesJarPath moduleName },
             stages2, allJarSpecs, false⟩)

/-- The properties of JavaPrebuilt (java.go lines 364-373). -/
structure PrebuiltProperties where
  Srcs : List String
  deriving DecidableEq, Repr

/-- Modelled from the spec: TransformPrebuiltJarToClasses (builder.go, not in
the provided sources) splits the prebuilt archive into one class jarSpec and
one resource jarSpec. -/
def transformPrebuiltJarToClasses (prebuilt : String) : jarSpec × jarSpec :=
  (⟨prebuilt ++ ":classes"⟩, ⟨prebuilt ++ ":resources"⟩)

/-- filepath.Join of the module source directory and a relative path. -/
def filepathJoin (dir p : String) : String :=
  dir ++ "/" ++ p

/-- JavaPrebuilt.GenerateAndroidBuildActions from java.go lines 375-389.  The
ModuleErrorf on a source list of length other than one aborts with nothing
published (the fields keep their zero values, conveyed by Except.error). -/
def prebuiltGenerateAndroidBuildActions (srcDir moduleName : String)
    (j : PrebuiltProperties) : Except String ModuleState :=
  if j.Srcs.length ≠ 1 then
    .error "expected exactly one jar in srcs"
  else
    let prebuilt := filepathJoin srcDir (j.Srcs.headD "")
    let p := transformPrebuiltJarToClasses prebuilt
    .ok ⟨prebuilt, [p.1], [p.2], installPath moduleName⟩

/-- The zero value of the javaBase properties before a factory or the
property loader touches them. -/
def defaultProperties : Properties :=
  ⟨[], [], false, [], [], [], [], "", "", false, ""⟩

/-- JavaLibraryFactory (java.go lines 310-316): device-capable library,
sets properties.Dex = true. -/
def JavaLibraryFactory : Properties :=
  { defaultProperties with Dex := true }

/-- JavaLibraryHostFactory (java.go lines 318-322): host-only library,
leaves Dex at its zero value false. -/
def JavaLibraryHostFactory : Properties :=
  defaultProperties

/-- JavaBinaryFactory (java.go lines 346-352): device-capable binary,
sets properties.Dex = true. -/
def JavaBinaryFactory : Properties :=
  { defaultProperties with Dex := true }

/-- JavaBinaryHostFactory (java.go lines 354-358): host-only binary,
leaves Dex at its zero value false. -/
def JavaBinaryHostFactory : Properties :=
  defaultProperties

/-- The descriptor fields settable from configuration input.  Dex is absent:
it carries the tag blueprint mutated (java.go line 85), which excludes it
from configuration input. -/
structure ConfigInput where
  Srcs : List String
  Resource_dirs : List String
  No_standard_libraries : Bool
  Javacflags : List String
  Dxflags : List String
  Java_libs : List String
  Java_static_libs : List String
  Manifest : String
  Sdk_version : String
  Jarjar_rules : String
  deriving DecidableEq, Repr

/-- Modelled from the spec: the property loader fills every configurable
descriptor field from the configuration input, while a field tagged
blueprint mutated (Dex) keeps the value the factory gave it. -/
def loadProperties (base : Properties) (cfg : ConfigInput) : Properties :=
  ⟨cfg.Srcs, cfg.Resource_dirs, cfg.No_standard_libraries, cfg.Javacflags,
   cfg.Dxflags, cfg.Java_libs, cfg.Java_static_libs, cfg.Manifest,
   cfg.Sdk_version, base.Dex, cfg.Jarjar_rules⟩

/-- A resolved dependency is classifiable when it implements JavaDependency
and its name falls in one of the three declared categories checked by
collectDeps. -/
def classifiable (device : Bool) (j : Properties) (d : ResolvedDep) : Bool :=
  d.isJavaDep &&
    (inList d.name j.Java_libs || inList d.name j.Java_static_libs ||
      d.name == BootClasspath device j)

/-- The class jarSpec list a successful pipeline publishes: own compiled
classes first, then the specs collected from merge dependencies. -/
def pipelineClassJarSpecs (moduleName : String) (c : CollectResult) : List jarSpec :=
  transformJavaToClasses moduleName :: c.classJarSpecs

/-- The resource jarSpec list a successful pipeline publishes: own resource
directories first, then the specs collected from merge dependencies. -/
def pipelineResourceJarSpecs (moduleName : String) (j : Properties)
    (c : CollectResult) : List jarSpec :=
  resourceDirsToJarSpecs moduleName j.Resource_dirs ++ c.resourceJarSpecs

/-- The classpath entry a successful pipeline publishes: the rename output
when a rename-rule file is present, otherwise the primary merge output. -/
def pipelineOutput (moduleName : String) (j : Properties) : String :=
  if j.Jarjar_rules ≠ "" then jarjarJarPath moduleName else classesJarPath moduleName

/-- The stages a fully successful run starts, in order. -/
def pipelineStages (j : Properties) : List Stage :=
  ([Stage.compile, Stage.primaryMerge] ++
    (if j.Jarjar_rules ≠ "" then [Stage.rename] else [])) ++
    (if j.Dex then [Stage.dexConvert, Stage.dexMerge] else [])

/-! ## General lemmas about the pipeline and the collection pass -/

/-- A run of GenerateJavaBuildActions in which no external transform fails
publishes exactly the pipeline output path, the own-first jarSpec lists and
the install location, and starts exactly the guarded stage sequence. -/
theorem generate_noFailures (device : Bool) (m : String) (j : Properties)
    (deps : List ResolvedDep) (c : CollectResult)
    (hc : collectDeps device j m deps = .ok c)
    (hme : c.moduleErrors = []) :
    generateJavaBuildActions device m j deps noFailures =
      .ok ⟨⟨pipelineOutput m j, pipelineClassJarSpecs m c,
            pipelineResourceJarSpecs m j c, installPath m⟩,
           pipelineStages j,
           pipelineClassJarSpecs m c ++ pipelineResourceJarSpecs m j c,
           false⟩ := by
  unfold generateJavaBuildActions finishDex pipelineOutput pipelineStages
    pipelineClassJarSpecs pipelineResourceJarSpecs noFailures initialState
  rw [hc]
  by_cases hjj : j.Jarjar_rules = "" <;> by_cases hdex : j.Dex <;>
    simp [hme, hjj, hdex]

/-- When every resolved dependency is classifiable, the collection pass
succeeds and its classpath extends the accumulator with one entry per
link-only or merge dependency, in visitation order; no module error is
added. -/
theorem collectDepsAux_classifiable (device : Bool) (j : Properties) (m : String)
    (deps : List ResolvedDep) (acc : CollectResult)
    (h : ∀ d ∈ deps, classifiable device j d = true) :
    ∃ r, collectDepsAux device j m acc deps = .ok r ∧
      r.classpath = acc.classpath ++
        (deps.filter (fun d =>
          inList d.name j.Java_libs || inList d.name j.Java_static_libs)).map
          (fun d => d.classpathFile) ∧
      r.moduleErrors = acc.moduleErrors := by
  induction deps generalizing acc with
  | nil => exact ⟨acc, rfl, by simp, rfl⟩
  | cons d rest ih =>
    have hd := h d (List.mem_cons_self d rest)
    have hrest : ∀ x ∈ rest, classifiable device j x = true :=
      fun x hx => h x (List.mem_cons_of_mem d hx)
    unfold classifiable at hd
    simp only [Bool.and_eq_true, Bool.or_eq_true, beq_iff_eq] at hd
    obtain ⟨hjava, hcases⟩ := hd
    cases h1 : inList d.name j.Java_libs with
    | true =>
      obtain ⟨r, hr, hcp, hme⟩ :=
        ih { acc with classpath := acc.classpath ++ [d.classpathFile] } hrest
      refine ⟨r, ?_, ?_, hme⟩
      · simpa only [collectDepsAux, hjava, h1, if_true] using hr
      · simp [hcp, List.filter_cons, h1, List.append_assoc]
    | false =>
      cases h2 : inList d.name j.Java_static_libs with
      | true =>
        obtain ⟨r, hr, hcp, hme⟩ :=
          ih { acc with
                classpath := acc.classpath ++ [d.classpathFile]
                classJarSpecs := acc.classJarSpecs ++ d.classJarSpecs
                resourceJarSpecs := acc.resourceJarSpecs ++ d.resourceJarSpecs } hrest
        refine ⟨r, ?_, ?_, hme⟩
        · simpa only [collectDepsAux, hjava, h1, h2, if_true, Bool.false_eq_true,
            if_false] using hr
        · simp [hcp, List.filter_cons, h1, h2, List.append_assoc]
      | false =>
        have hboot : d.name = BootClasspath device j :=
          hcases.resolve_left (by simp [h1, h2])
        obtain ⟨r, hr, hcp, hme⟩ :=
          ih { acc with bootClasspath := d.classpathFile } hrest
        refine ⟨r, ?_, ?_, hme⟩
        · simp only [collectDepsAux, hjava, h1, h2, Bool.false_eq_true,
            if_false, if_true]
          rw [if_pos hboot]
          exact hr
        · simp [hcp, List.filter_cons, h1, h2]

/-- The collection pass reads only the two dependency-name lists and the two
boot-policy inputs of the descriptor; any two descriptors agreeing on those
collect identically. -/
theorem collectDepsAux_congr (device : Bool) (p q : Properties) (m : String)
    (hl : p.Java_libs = q.Java_libs) (hs : p.Java_static_libs = q.Java_static_libs)
    (hv : p.Sdk_version = q.Sdk_version) (hd : p.Dex = q.Dex)
    (acc : CollectResult) (deps : List ResolvedDep) :
    collectDepsAux device p m acc deps = collectDepsAux device q m acc deps := by
  have hb : BootClasspath device p = BootClasspath device q := by
    unfold BootClasspath; rw [hv, hd]
  induction deps generalizing acc with
  | nil => rfl
  | cons d rest ih =>
    simp only [collectDepsAux, hl, hs, hb]
    split
    · split
      · exact ih _
      · split
        · exact ih _
        · split
          · exact ih _
          · rfl
    · exact ih _

/-- The rename-stage output path differs from the primary-merge output path
for every module name. -/
theorem jarjar_ne_classesJar (m : String) : jarjarJarPath m ≠ classesJarPath m := by
  intro h
  have hdata := congrArg String.data h
  simp only [jarjarJarPath, classesJarPath, String.data_append] at hdata
  have h2 := List.append_cancel_left hdata
  exact absurd h2 (by decide)

/-! ## Claim C5 -/

/-- Claim C5: BootClasspath is a pure function of (targetIsDevice,
produceFinalFormat = Dex, sdkVersionSelector = Sdk_version): for a device
target it returns the base library core-libart when the selector is empty,
the current-stubs name for "current", the system-stubs name for
"system_current", and the version-specific sdk name derived from V for any
other non-empty selector; for a host target it returns core-libart when Dex
is set and the empty string otherwise. -/
theorem claimC5_bootClasspathPolicy (device : Bool) (p q : Properties)
    (hD : p.Dex = q.Dex) (hS : p.Sdk_version = q.Sdk_version) :
    BootClasspath device p = BootClasspath device q ∧
    BootClasspath device p =
      (if device then
         if p.Sdk_version = "" then "core-libart"
         else if p.Sdk_version = "current" then "android_stubs_current"
         else if p.Sdk_version = "system_current" then "android_system_stubs_current"
         else "sdk_v" ++ p.Sdk_version
       else if p.Dex then "core-libart" else "") := by
  refine ⟨?_, rfl⟩
  unfold BootClasspath
  rw [hD, hS]

/-- Witness for claim C5, at the two device factories (same Dex and
Sdk_version values). -/
theorem claimC5_witness :
    BootClasspath true JavaLibraryFactory = BootClasspath true JavaBinaryFactory ∧
    BootClasspath true JavaLibraryFactory =
      (if true then
         if JavaLibraryFactory.Sdk_version = "" then "core-libart"
         else if JavaLibraryFactory.Sdk_version = "current" then "android_stubs_current"
         else if JavaLibraryFactory.Sdk_version = "system_current" then
           "android_system_stubs_current"
         else "sdk_v" ++ JavaLibraryFactory.Sdk_version
       else if JavaLibraryFactory.Dex then "core-libart" else "") :=
  claimC5_bootClasspathPolicy true JavaLibraryFactory JavaBinaryFactory rfl rfl

/-! ## Claim C1 -/

/-- A descriptor whose name "a" sits in both the link-only and the merge
list, and a resolved dependency of that name. -/
def ambProps : Properties :=
  { defaultProperties with Java_libs := ["a"], Java_static_libs := ["a"] }

def ambDep : ResolvedDep := ⟨"a", true, "out/a.jar", [⟨"ac"⟩], [⟨"ar"⟩]⟩

/-- Claim C1 counterexample: the name "a" appears in both the link-only and
the merge list, yet classifying the resolved dependency "a" does not fail:
collectDeps returns Except.ok, silently classifying it as link-only (its
classpath entry is appended, its jarSpecs are not collected, and no error is
recorded). -/
theorem claimC1_counterexample :
    inList "a" ambProps.Java_libs = true ∧
    inList "a" ambProps.Java_static_libs = true ∧
    collectDeps true ambProps "mod" [ambDep] =
      .ok ⟨["out/a.jar"], "", [], [], []⟩ :=
  ⟨rfl, rfl, rfl⟩

/-- Claim C1 amended: a dependency whose name appears in both the link-only
and the merge list is silently classified as link-only (the Java_libs check
comes first): collection succeeds, appends its classpath entry, collects
none of its jarSpecs, and raises no error. -/
theorem claimC1_amended (device : Bool) (j : Properties) (m : String)
    (d : ResolvedDep) (hJ : d.isJavaDep = true)
    (hLink : inList d.name j.Java_libs = true)
    (hMerge : inList d.name j.Java_static_libs = true) :
    collectDeps device j m [d] =
      .ok ⟨[d.classpathFile], "", [], [], []⟩ := by
  unfold collectDeps
  simp only [collectDepsAux, hJ, hLink, if_true]
  rfl

/-- Witness for the amended claim C1. -/
theorem claimC1_witness :
    collectDeps false ambProps "mod" [ambDep] =
      .ok ⟨["out/a.jar"], "", [], [], []⟩ :=
  claimC1_amended false ambProps "mod" ambDep rfl rfl rfl

/-! ## Claim C2 -/

/-- A descriptor with one link-only library on a device target (boot name
core-libart), and the two resolved dependencies in declaration order. -/
def c2Props : Properties := { defaultProperties with Java_libs := ["liba"] }

def c2BootDep : ResolvedDep := ⟨"core-libart", true, "out/core.jar", [], []⟩

def c2LibDep : ResolvedDep := ⟨"liba", true, "out/liba.jar", [], []⟩

/-- Claim C2 counterexample: with a boot entry present and one link-only
library, the classpath returned by collectDeps is ["out/liba.jar"]: its
length is 1, not 1 + 1 + 0 as the claim requires, and its first entry is not
the boot entry — the boot entry is returned separately in bootClasspath and
never appears in classpath. -/
theorem claimC2_counterexample :
    collectDeps true c2Props "mod" [c2BootDep, c2LibDep] =
      .ok ⟨["out/liba.jar"], "out/core.jar", [], [], []⟩ ∧
    (["out/liba.jar"] : List String).length ≠
      1 + c2Props.Java_libs.length + c2Props.Java_static_libs.length ∧
    (["out/liba.jar"] : List String).head? ≠ some "out/core.jar" :=
  ⟨rfl, by decide, by decide⟩

/-- Claim C2 amended: for a dependency set in which every resolved
dependency is classifiable, collectDeps succeeds and its classpath holds
exactly one entry per link-only or merge dependency, in visitation order
(link-only and merge entries interleaved as visited, not grouped); the boot
entry is returned separately and is not a classpath element, and no
deduplication of any kind is performed. -/
theorem claimC2_amended (device : Bool) (j : Properties) (m : String)
    (deps : List ResolvedDep)
    (h : ∀ d ∈ deps, classifiable device j d = true) :
    ∃ r, collectDeps device j m deps = .ok r ∧
      r.classpath = (deps.filter (fun d =>
        inList d.name j.Java_libs || inList d.name j.Java_static_libs)).map
        (fun d => d.classpathFile) := by
  obtain ⟨r, hr, hcp, h3⟩ :=
    collectDepsAux_classifiable device j m deps emptyCollect h
  exact ⟨r, hr, by simpa [emptyCollect] using hcp⟩

/-- Witness for the amended claim C2. -/
theorem claimC2_witness :
    ∃ r, collectDeps true c2Props "mod" [c2BootDep, c2LibDep] = .ok r ∧
      r.classpath = (([c2BootDep, c2LibDep].filter (fun d =>
        inList d.name c2Props.Java_libs ||
          inList d.name c2Props.Java_static_libs)).map
        (fun d => d.classpathFile)) :=
  claimC2_amended true c2Props "mod" [c2BootDep, c2LibDep] (by decide)

/-! ## Claim C7 -/

/-- Claim C7: a resolved dependency that implements the JavaDependency
interface but whose name is neither in the link-only list, nor in the merge
list, nor equal to the boot-classpath name makes collection fail with the
unknown-dependency panic the moment it is visited: the whole collection
aborts with the error (no later dependency is visited and no result is
produced), so the error is fatal for the module and not retried. -/
theorem claimC7_unknownDependency (device : Bool) (j : Properties) (m : String)
    (d : ResolvedDep) (rest : List ResolvedDep)
    (hJ : d.isJavaDep = true)
    (h1 : inList d.name j.Java_libs = false)
    (h2 : inList d.name j.Java_static_libs = false)
    (h3 : d.name ≠ BootClasspath device j) :
    collectDeps device j m (d :: rest) =
      .error ("unknown dependency " ++ d.name ++ " for " ++ m) := by
  unfold collectDeps
  simp only [collectDepsAux, hJ, h1, h2, Bool.false_eq_true, if_false, if_true]
  rw [if_neg h3]

def c7Props : Properties := { defaultProperties with No_standard_libraries := true }

def c7Dep : ResolvedDep := ⟨"zzz", true, "out/z.jar", [], []⟩

/-- Witness for claim C7. -/
theorem claimC7_witness :
    collectDeps true c7Props "mod" [c7Dep] =
      .error ("unknown dependency " ++ "zzz" ++ " for " ++ "mod") :=
  claimC7_unknownDependency true c7Props "mod" c7Dep [] rfl rfl rfl (by decide)

/-! ## Claim C3 -/

/-- A descriptor with one merge dependency and no implicit libraries, and the
resolved merge dependency exporting one class jarSpec and one resource
jarSpec. -/
def c3Props : Properties :=
  { defaultProperties with Java_static_libs := ["lib"], No_standard_libraries := true }

def c3Dep : ResolvedDep := ⟨"lib", true, "out/lib.jar", [⟨"libc"⟩], [⟨"libr"⟩]⟩

/-- Claim C3 counterexample: after a successful pipeline run, the exported
class jarSpec list is [own classes, libc] — it contains the merge
dependency's jarSpec libc, not only this module's own compile-stage jarSpec,
so merge content IS re-exported to dependents (it chains transitively). -/
theorem claimC3_counterexample :
    generateJavaBuildActions true "mod" c3Props [c3Dep] noFailures =
      .ok ⟨⟨classesJarPath "mod", [transformJavaToClasses "mod", ⟨"libc"⟩],
            [⟨"libr"⟩], installPath "mod"⟩,
           [Stage.compile, Stage.primaryMerge],
           [transformJavaToClasses "mod", ⟨"libc"⟩, ⟨"libr"⟩], false⟩ ∧
    (⟨"libc"⟩ : jarSpec) ∈ c3Dep.classJarSpecs ∧
    ([transformJavaToClasses "mod", ⟨"libc"⟩] : List jarSpec) ≠
      [transformJavaToClasses "mod"] :=
  ⟨rfl, by decide, by decide⟩

/-- Claim C3 amended: the published ClassJarSpecs list equals this module's
own compile-stage jarSpec followed by all class jarSpecs collected from its
merge dependencies, and the published ResourceJarSpecs list equals the own
resource-directory jarSpecs followed by the collected resource jarSpecs —
merge content is re-exported and therefore chains transitively through
dependents. -/
theorem claimC3_amended (device : Bool) (m : String) (j : Properties)
    (deps : List ResolvedDep) (c : CollectResult)
    (hc : collectDeps device j m deps = .ok c)
    (hme : c.moduleErrors = []) :
    ∃ r, generateJavaBuildActions device m j deps noFailures = .ok r ∧
      r.state.classJarSpecs = transformJavaToClasses m :: c.classJarSpecs ∧
      r.state.resourceJarSpecs =
        resourceDirsToJarSpecs m j.Resource_dirs ++ c.resourceJarSpecs :=
  ⟨_, generate_noFailures device m j deps c hc hme, rfl, rfl⟩

/-- Witness for the amended claim C3. -/
theorem claimC3_witness :
    ∃ r, generateJavaBuildActions true "mod" c3Props [c3Dep] noFailures = .ok r ∧
      r.state.classJarSpecs = transformJavaToClasses "mod" :: [⟨"libc"⟩] ∧
      r.state.resourceJarSpecs =
        resourceDirsToJarSpecs "mod" c3Props.Resource_dirs ++ [⟨"libr"⟩] :=
  claimC3_amended true "mod" c3Props [c3Dep]
    ⟨["out/lib.jar"], "", [⟨"libc"⟩], [⟨"libr"⟩], []⟩ rfl rfl

/-! ## Claim C4 -/

/-- A descriptor with a rename-rule file and no dependencies. -/
def c4Props : Properties :=
  { defaultProperties with No_standard_libraries := true, Jarjar_rules := "rules.txt" }

/-- Claim C4 counterexample: when the rename stage fails, no later stage runs
(stagesRun ends at rename) but the run has already published a partial
capability: the exported class jarSpec list is the nonempty
[own classes], not empty as the claim requires (java.go assigns
j.classJarSpecs and j.resourceJarSpecs before the jarjar stage). -/
theorem claimC4_counterexample :
    generateJavaBuildActions true "mod" c4Props [] jarjarFailure =
      .ok ⟨⟨"", [transformJavaToClasses "mod"], [], ""⟩,
           [Stage.compile, Stage.primaryMerge, Stage.rename],
           [transformJavaToClasses "mod"], true⟩ ∧
    ([transformJavaToClasses "mod"] : List jarSpec) ≠ [] :=
  ⟨rfl, by decide⟩

/-- Claim C4 amended: no stage after the failing one runs, but what is
published depends on where the failure happens: a compile or primary-merge
failure publishes nothing; a rename failure leaves the two jarSpec lists
published (they are assigned before the rename stage) while the classpath
entry and install location stay empty; a final-format-convert failure leaves
the jarSpec lists and the classpath entry published while the install
location stays empty. -/
theorem claimC4_amended (device : Bool) (m : String) (j : Properties)
    (deps : List ResolvedDep) (c : CollectResult)
    (hc : collectDeps device j m deps = .ok c)
    (hme : c.moduleErrors = []) :
    (generateJavaBuildActions device m j deps compileFailure =
       .ok ⟨initialState, [Stage.compile], [], true⟩) ∧
    (generateJavaBuildActions device m j deps mergeFailure =
       .ok ⟨initialState, [Stage.compile, Stage.primaryMerge],
            pipelineClassJarSpecs m c ++ pipelineResourceJarSpecs m j c, true⟩) ∧
    (j.Jarjar_rules ≠ "" →
      generateJavaBuildActions device m j deps jarjarFailure =
        .ok ⟨⟨"", pipelineClassJarSpecs m c, pipelineResourceJarSpecs m j c, ""⟩,
             [Stage.compile, Stage.primaryMerge, Stage.rename],
             pipelineClassJarSpecs m c ++ pipelineResourceJarSpecs m j c, true⟩) ∧
    (j.Dex = true →
      generateJavaBuildActions device m j deps dexFailure =
        .ok ⟨⟨pipelineOutput m j, pipelineClassJarSpecs m c,
              pipelineResourceJarSpecs m j c, ""⟩,
             ([Stage.compile, Stage.primaryMerge] ++
               (if j.Jarjar_rules ≠ "" then [Stage.rename] else [])) ++
               [Stage.dexConvert],
             pipelineClassJarSpecs m c ++ pipelineResourceJarSpecs m j c, true⟩) := by
  refine ⟨?_, ?_, ?_, ?_⟩
  · unfold generateJavaBuildActions compileFailure
    rw [hc]
    simp
  · unfold generateJavaBuildActions mergeFailure pipelineClassJarSpecs
      pipelineResourceJarSpecs
    rw [hc]
    simp [hme]
  · intro hjj
    unfold generateJavaBuildActions jarjarFailure pipelineClassJarSpecs
      pipelineResourceJarSpecs initialState
    rw [hc]
    simp [hme, hjj]
  · intro hdex
    unfold generateJavaBuildActions finishDex dexFailure pipelineOutput
      pipelineClassJarSpecs pipelineResourceJarSpecs initialState
    rw [hc]
    by_cases hjj : j.Jarjar_rules = "" <;> simp [hme, hjj, hdex]

/-- A descriptor with both a rename-rule file and the final-format flag. -/
def c4wProps : Properties :=
  { defaultProperties with
    No_standard_libraries := true
    Jarjar_rules := "r.txt"
    Dex := true }

/-- Witness for the amended claim C4, at the rename-failure case. -/
theorem claimC4_witness :
    generateJavaBuildActions true "mod" c4wProps [] jarjarFailure =
      .ok ⟨⟨"", [transformJavaToClasses "mod"], [], ""⟩,
           [Stage.compile, Stage.primaryMerge, Stage.rename],
           [transformJavaToClasses "mod"], true⟩ :=
  (claimC4_amended true "mod" c4wProps [] emptyCollect rfl rfl).2.2.1 (by decide)

/-! ## Claim C6 -/

/-- A descriptor with one merge dependency and one resource directory. -/
def c6Props : Properties :=
  { defaultProperties with
    Java_static_libs := ["s"]
    Resource_dirs := ["rd"]
    No_standard_libraries := true }

def c6Dep : ResolvedDep := ⟨"s", true, "out/s.jar", [⟨"sc"⟩], [⟨"sr"⟩]⟩

/-- Claim C6: the jarSpec list handed to the primary merge places this
module's own freshly compiled class jarSpec strictly before every
merge-dependency class jarSpec (it is the head of the class block), and every
resource jarSpec — own and merged alike — comes after all class jarSpecs:
the list is exactly (own classes :: collected class specs) ++
(own resource-dir specs ++ collected resource specs). -/
theorem claimC6_mergeOrder (device : Bool) (m : String) (j : Properties)
    (deps : List ResolvedDep) (c : CollectResult)
    (hc : collectDeps device j m deps = .ok c)
    (hme : c.moduleErrors = []) :
    ∃ r, generateJavaBuildActions device m j deps noFailures = .ok r ∧
      r.allJarSpecs =
        (transformJavaToClasses m :: c.classJarSpecs) ++
          (resourceDirsToJarSpecs m j.Resource_dirs ++ c.resourceJarSpecs) :=
  ⟨_, generate_noFailures device m j deps c hc hme, rfl⟩

/-- Witness for claim C6. -/
theorem claimC6_witness :
    ∃ r, generateJavaBuildActions true "mod" c6Props [c6Dep] noFailures = .ok r ∧
      r.allJarSpecs =
        (transformJavaToClasses "mod" :: [⟨"sc"⟩]) ++
          (resourceDirsToJarSpecs "mod" c6Props.Resource_dirs ++ [⟨"sr"⟩]) :=
  claimC6_mergeOrder true "mod" c6Props [c6Dep]
    ⟨["out/s.jar"], "", [⟨"sc"⟩], [⟨"sr"⟩], []⟩ rfl rfl

/-! ## Claim C8 -/

/-- Claim C8: a prebuilt module whose source list does not have exactly one
path fails with the configuration error and publishes nothing; with exactly
one path it publishes exactly one class jarSpec, exactly one resource
jarSpec, and the given archive path itself (prefixed with the module source
directory) as the classpath entry, with no stage failures. -/
theorem claimC8_prebuilt (srcDir m : String) (j : PrebuiltProperties) :
    (j.Srcs.length ≠ 1 →
      prebuiltGenerateAndroidBuildActions srcDir m j =
        .error "expected exactly one jar in srcs") ∧
    (∀ p, j.Srcs = [p] →
      prebuiltGenerateAndroidBuildActions srcDir m j =
        .ok ⟨filepathJoin srcDir p,
             [(transformPrebuiltJarToClasses (filepathJoin srcDir p)).1],
             [(transformPrebuiltJarToClasses (filepathJoin srcDir p)).2],
             installPath m⟩) := by
  constructor
  · intro h
    unfold prebuiltGenerateAndroidBuildActions
    rw [if_pos h]
  · intro p hp
    unfold prebuiltGenerateAndroidBuildActions
    rw [hp]
    simp

def c8Good : PrebuiltProperties := ⟨["a.jar"]⟩

def c8Bad : PrebuiltProperties := ⟨["a.jar", "b.jar"]⟩

/-- Witness for claim C8, covering both the two-path failure and the
one-path success. -/
theorem claimC8_witness :
    prebuiltGenerateAndroidBuildActions "src/p" "p" c8Bad =
      .error "expected exactly one jar in srcs" ∧
    prebuiltGenerateAndroidBuildActions "src/p" "p" c8Good =
      .ok ⟨filepathJoin "src/p" "a.jar",
           [(transformPrebuiltJarToClasses (filepathJoin "src/p" "a.jar")).1],
           [(transformPrebuiltJarToClasses (filepathJoin "src/p" "a.jar")).2],
           installPath "p"⟩ :=
  ⟨(claimC8_prebuilt "src/p" "p" c8Bad).1 (by decide),
   (claimC8_prebuilt "src/p" "p" c8Good).2 "a.jar" rfl⟩

/-! ## Claim C9 -/

/-- Claim C9: relative to the same descriptor without a rename-rule file, a
descriptor with one changes only the exported classpath entry (the rename
output instead of the primary-merge output — two distinct paths); the
exported class jarSpec list, resource jarSpec list and install location are
identical in both runs, because the jarSpec lists are captured before the
rename stage and thus reference the pre-rename class archives. -/
theorem claimC9_renameFrame (device : Bool) (m : String) (j : Properties)
    (deps : List ResolvedDep) (c : CollectResult)
    (hc : collectDeps device j m deps = .ok c)
    (hme : c.moduleErrors = [])
    (hjj : j.Jarjar_rules ≠ "") :
    ∃ r1 r2,
      generateJavaBuildActions device m j deps noFailures = .ok r1 ∧
      generateJavaBuildActions device m { j with Jarjar_rules := "" } deps
        noFailures = .ok r2 ∧
      r1.state.classJarSpecs = r2.state.classJarSpecs ∧
      r1.state.resourceJarSpecs = r2.state.resourceJarSpecs ∧
      r1.state.installFile = r2.state.installFile ∧
      r1.state.classpathFile = jarjarJarPath m ∧
      r2.state.classpathFile = classesJarPath m ∧
      jarjarJarPath m ≠ classesJarPath m := by
  have hc2 : collectDeps device { j with Jarjar_rules := "" } m deps = .ok c := by
    unfold collectDeps at hc ⊢
    rw [collectDepsAux_congr device { j with Jarjar_rules := "" } j m rfl rfl rfl rfl]
    exact hc
  refine ⟨_, _, generate_noFailures device m j deps c hc hme,
    generate_noFailures device m _ deps c hc2 hme, rfl, rfl, rfl, ?_, ?_,
    jarjar_ne_classesJar m⟩
  · show pipelineOutput m j = jarjarJarPath m
    unfold pipelineOutput
    rw [if_pos hjj]
  · show pipelineOutput m { j with Jarjar_rules := "" } = classesJarPath m
    simp [pipelineOutput]

/-- A descriptor with a rename-rule file and no dependencies, for the C9
witness. -/
def c9Props : Properties :=
  { defaultProperties with No_standard_libraries := true, Jarjar_rules := "rules.txt" }

/-- Witness for claim C9. -/
theorem claimC9_witness :
    ∃ r1 r2,
      generateJavaBuildActions true "mod" c9Props [] noFailures = .ok r1 ∧
      generateJavaBuildActions true "mod" { c9Props with Jarjar_rules := "" } []
        noFailures = .ok r2 ∧
      r1.state.classJarSpecs = r2.state.classJarSpecs ∧
      r1.state.resourceJarSpecs = r2.state.resourceJarSpecs ∧
      r1.state.installFile = r2.state.installFile ∧
      r1.state.classpathFile = jarjarJarPath "mod" ∧
      r2.state.classpathFile = classesJarPath "mod" ∧
      jarjarJarPath "mod" ≠ classesJarPath "mod" :=
  claimC9_renameFrame true "mod" c9Props [] emptyCollect rfl rfl (by decide)

/-! ## Claim C10 -/

/-- Claim C10: the device-capable factories construct their module with the
final-format flag Dex already true, the host-only factories leave it false,
and the flag is not settable from the descriptor's configuration input (it
carries the blueprint mutated tag, so the loader preserves the factory
value); consequently, for any descriptor with Dex set, every successful run
of the pipeline starts the final-format-convert stage. -/
theorem claimC10_dexFlag (cfg : ConfigInput) :
    (loadProperties JavaLibraryFactory cfg).Dex = true ∧
    (loadProperties JavaBinaryFactory cfg).Dex = true ∧
    (loadProperties JavaLibraryHostFactory cfg).Dex = false ∧
    (loadProperties JavaBinaryHostFactory cfg).Dex = false ∧
    (∀ device m j deps c, j.Dex = true →
      collectDeps device j m deps = Except.ok c → c.moduleErrors = [] →
      ∃ r, generateJavaBuildActions device m j deps noFailures = .ok r ∧
        Stage.dexConvert ∈ r.stagesRun ∧ r.failed = false) := by
  refine ⟨rfl, rfl, rfl, rfl, ?_⟩
  intro device m j deps c hdex hc hme
  refine ⟨_, generate_noFailures device m j deps c hc hme, ?_, rfl⟩
  unfold pipelineStages
  simp [hdex]

def c10Cfg : ConfigInput := ⟨[], [], true, [], [], [], [], "", "", ""⟩

def c10Props : Properties :=
  { defaultProperties with Dex := true, No_standard_libraries := true }

/-- Witness for claim C10. -/
theorem claimC10_witness :
    (loadProperties JavaLibraryFactory c10Cfg).Dex = true ∧
    (loadProperties JavaBinaryFactory c10Cfg).Dex = true ∧
    (loadProperties JavaLibraryHostFactory c10Cfg).Dex = false ∧
    (loadProperties JavaBinaryHostFactory c10Cfg).Dex = false ∧
    (∃ r, generateJavaBuildActions true "mod" c10Props [] noFailures = .ok r ∧
      Stage.dexConvert ∈ r.stagesRun ∧ r.failed = false) := by
  have h := claimC10_dexFlag c10Cfg
  exact ⟨h.1, h.2.1, h.2.2.1, h.2.2.2.1,
    h.2.2.2.2 true "mod" c10Props [] emptyCollect rfl rfl rfl⟩

end Soong
